import Mathlib

set_option maxRecDepth 20000

/-!
Verification of the indicator and signal engine of the binance trading bot.

The candle data model follows the ChartCandle builder of the trading loop.
The RSI formula itself lives in the external technicalindicators package, so
it is modelled from the specification (section 4.1 and 4.3): Wilder smoothing
of the clipped close differences, seeded with the simple average of the first
period values, and the 100 - 100/(1+RS) map with the zero average-loss
convention. JavaScript numbers are idealised as rationals; a JavaScript
undefined is an absent Option value, and relational comparisons against
undefined evaluate to false, as in the source runtime.
-/

/-- One OHLCV bar, as built by the ChartCandle function of the trading loop.
The field open is renamed open_ because open is a Lean keyword. -/
structure ChartCandle where
  open_ : ℚ
  high : ℚ
  low : ℚ
  close : ℚ
  volume : ℚ
  closeTime : ℚ
  trades : ℚ
deriving DecidableEq

/-- A candle whose every price field is the given close, used for concrete inputs. -/
def candleOfClose (x : ℚ) : ChartCandle :=
  { open_ := x, high := x, low := x, close := x, volume := 0, closeTime := 0, trades := 0 }

/-- Candles from a list of closes. -/
def candlesOfCloses (xs : List ℚ) : List ChartCandle :=
  xs.map candleOfClose

/-- Modelled from the spec: successive differences of a value series,
the raw material of the RSI gains and losses. -/
def diffs : List ℚ → List ℚ
  | a :: b :: rest => (b - a) :: diffs (b :: rest)
  | _ => []

/-- Modelled from the spec: the recursive part of Wilder smoothing with
factor 1/period, after the seed value. -/
def rmaRec (period : ℕ) (prev : ℚ) : List ℚ → List ℚ
  | [] => []
  | x :: xs =>
    let v := (prev * ((period : ℚ) - 1) + x) / (period : ℚ)
    v :: rmaRec period v xs

/-- Modelled from the spec: RMA (Wilder smoothing), seeded with the SMA of the
first period values; absent (empty) on insufficient history. This stands in for
the AverageGain and AverageLoss providers of the external technicalindicators
package, which src delegates to. -/
def rma (period : ℕ) (values : List ℚ) : List ℚ :=
  if values.length < period ∨ period = 0 then []
  else
    (values.take period).sum / (period : ℚ)
      :: rmaRec period ((values.take period).sum / (period : ℚ)) (values.drop period)

/-- Modelled from the spec: one RSI point from an average gain and an average
loss; a zero average loss yields 100 by convention. -/
def rsiPoint (g l : ℚ) : ℚ :=
  if l = 0 then 100 else 100 - 100 / (1 + g / l)

/-- Modelled from the spec: the RSI series over a close series, standing in for
RSI.calculate of the external technicalindicators package. -/
def rsiSeries (period : ℕ) (closes : List ℚ) : List ℚ :=
  List.zipWith rsiPoint
    (rma period ((diffs closes).map (fun d => max d 0)))
    (rma period ((diffs closes).map (fun d => max (-d) 0)))

/-- JavaScript array indexing with an integer index: out of range reads give
undefined, modelled as none. -/
def jsIndex (l : List ℚ) (i : ℤ) : Option ℚ :=
  if 0 ≤ i then l[i.toNat]? else none

/-- JavaScript comparison a < b where a may be undefined: comparisons against
undefined are false. -/
def jsLt (a : Option ℚ) (b : ℚ) : Bool :=
  match a with
  | some x => decide (x < b)
  | none => false

/-- JavaScript comparison a > b where a may be undefined: comparisons against
undefined are false. -/
def jsGt (a : Option ℚ) (b : ℚ) : Bool :=
  match a with
  | some x => decide (b < x)
  | none => false

def RSI_PERIOD : ℕ := 14

def RSI_OVERBOUGHT : ℚ := 75

def RSI_OVERSOLD : ℚ := 35

/-- isBuySignal from the RSI signal module: when at least RSI_PERIOD candles
are given, true exactly when the second to last RSI value is below the
oversold line and the last one is above it; otherwise the JavaScript function
returns undefined (none). -/
def isBuySignal (candles : List ChartCandle) : Option Bool :=
  if RSI_PERIOD ≤ candles.length then
    let values := rsiSeries RSI_PERIOD (candles.map (fun c => c.close))
    let last := jsIndex values ((values.length : ℤ) - 2)
    let current := jsIndex values ((values.length : ℤ) - 1)
    some (jsLt last RSI_OVERSOLD && jsGt current RSI_OVERSOLD)
  else none

/-- isSellSignal from the RSI signal module: when at least RSI_PERIOD candles
are given, true exactly when the second to last RSI value is above the
overbought line and the last one is below it; otherwise undefined (none). -/
def isSellSignal (candles : List ChartCandle) : Option Bool :=
  if RSI_PERIOD ≤ candles.length then
    let values := rsiSeries RSI_PERIOD (candles.map (fun c => c.close))
    let last := jsIndex values ((values.length : ℤ) - 2)
    let current := jsIndex values ((values.length : ℤ) - 1)
    some (jsGt last RSI_OVERBOUGHT && jsLt current RSI_OVERBOUGHT)
  else none

/-- The second to last value of the RSI series of a candle list, when defined. -/
def rsiPrev (candles : List ChartCandle) : Option ℚ :=
  let values := rsiSeries RSI_PERIOD (candles.map (fun c => c.close))
  jsIndex values ((values.length : ℤ) - 2)

/-- The last value of the RSI series of a candle list, when defined. -/
def rsiCurr (candles : List ChartCandle) : Option ℚ :=
  let values := rsiSeries RSI_PERIOD (candles.map (fun c => c.close))
  jsIndex values ((values.length : ℤ) - 1)

lemma diffs_length : ∀ l : List ℚ, (diffs l).length = l.length - 1
  | [] => rfl
  | [_] => rfl
  | a :: b :: rest => by
    have ih := diffs_length (b :: rest)
    simp [diffs] at ih ⊢
    omega

lemma rmaRec_length (period : ℕ) (prev : ℚ) (xs : List ℚ) :
    (rmaRec period prev xs).length = xs.length := by
  induction xs generalizing prev with
  | nil => rfl
  | cons x xs ih => simp [rmaRec, ih]

lemma rma_length (period : ℕ) (values : List ℚ) (hp : period ≠ 0) :
    (rma period values).length = values.length + 1 - period := by
  unfold rma
  by_cases h : values.length < period ∨ period = 0
  · rw [if_pos h]
    rcases h with h | h
    · simp
      omega
    · exact absurd h hp
  · rw [if_neg h]
    push_neg at h
    simp [rmaRec_length]
    omega

lemma rsiSeries_length (period : ℕ) (closes : List ℚ) (hp : period ≠ 0) :
    (rsiSeries period closes).length = closes.length - period := by
  unfold rsiSeries
  have h1 := rma_length period ((diffs closes).map (fun d => max d 0)) hp
  have h2 := rma_length period ((diffs closes).map (fun d => max (-d) 0)) hp
  have hd := diffs_length closes
  simp only [List.length_map] at h1 h2
  simp only [List.length_zipWith, h1, h2, hd]
  omega

lemma rsiPrev_some_length {candles : List ChartCandle} {p : ℚ}
    (hp : rsiPrev candles = some p) : 16 ≤ candles.length := by
  unfold rsiPrev jsIndex at hp
  by_cases h : 0 ≤ ((rsiSeries RSI_PERIOD (candles.map (fun c => c.close))).length : ℤ) - 2
  · have hlen := rsiSeries_length RSI_PERIOD (candles.map (fun c => c.close))
      (by norm_num [RSI_PERIOD])
    simp only [List.length_map, RSI_PERIOD] at hlen h
    omega
  · rw [if_neg h] at hp
    exact absurd hp (by simp)

/-- Evaluation of both signal functions when the last two RSI points are
defined: each is the corresponding pair of strict threshold comparisons. -/
lemma signal_values (candles : List ChartCandle) (p c : ℚ)
    (hp : rsiPrev candles = some p) (hc : rsiCurr candles = some c) :
    isBuySignal candles
      = some (decide (p < RSI_OVERSOLD) && decide (RSI_OVERSOLD < c)) ∧
    isSellSignal candles
      = some (decide (RSI_OVERBOUGHT < p) && decide (c < RSI_OVERBOUGHT)) := by
  have h16 := rsiPrev_some_length hp
  have hlen : RSI_PERIOD ≤ candles.length := by
    simp only [RSI_PERIOD]
    omega
  simp only [rsiPrev] at hp
  simp only [rsiCurr] at hc
  constructor
  · simp only [isBuySignal, if_pos hlen, hp, hc, jsLt, jsGt]
  · simp only [isSellSignal, if_pos hlen, hp, hc, jsLt, jsGt]

/-- Fourteen closes, the boundary case of the history guard. -/
def c1fourteenCloses : List ℚ :=
  [1, 2, 3, 4, 5, 6, 7, 8, 9, 10, 11, 12, 13, 14]

/-- Sixteen closes whose first RSI value is exactly the oversold threshold 35
and whose second RSI value is 1855/27, above the threshold. -/
def touchOversoldCloses : List ℚ :=
  [10, 17, 16, 15, 14, 13, 12, 11, 10, 9, 8, 7, 6, 5, 4, 24]

/-- The fifteen point close sequence of the end to end scenario. -/
def c3closes : List ℚ :=
  [44, 44.3, 44.1, 43.6, 44, 44.3, 45, 45.1, 45.2, 45.5, 45.1, 45.6, 46.1, 46.8, 47.2]

/-- Sixteen closes whose RSI goes from 25 to 205/4, crossing the oversold
line 35 from strictly below. -/
def buyCrossCloses : List ℚ :=
  [20, 25, 22, 21, 20, 19, 18, 17, 16, 15, 14, 13, 12, 11, 10, 20]

/-- Sixteen closes whose RSI goes from 250/3 to 9750/187, crossing the
overbought line 75 from strictly above. -/
def sellCrossCloses : List ℚ :=
  [30, 27, 30, 31, 32, 33, 34, 35, 36, 37, 38, 39, 40, 41, 42, 32]

lemma candlesOfCloses_close_map (xs : List ℚ) :
    (candlesOfCloses xs).map (fun c => c.close) = xs := by
  induction xs with
  | nil => rfl
  | cons x xs ih => simpa [candlesOfCloses, candleOfClose] using ih

lemma rsiSeries_eq_of_maps (closes gains losses : List ℚ)
    (hg : (diffs closes).map (fun d => max d 0) = gains)
    (hl : (diffs closes).map (fun d => max (-d) 0) = losses) :
    rsiSeries RSI_PERIOD closes
      = List.zipWith rsiPoint (rma RSI_PERIOD gains) (rma RSI_PERIOD losses) := by
  unfold rsiSeries
  rw [hg, hl]

lemma touchOversold_series :
    rsiSeries RSI_PERIOD touchOversoldCloses = [35, 1855 / 27] := by
  rw [rsiSeries_eq_of_maps touchOversoldCloses
      [7, 0, 0, 0, 0, 0, 0, 0, 0, 0, 0, 0, 0, 0, 20]
      [0, 1, 1, 1, 1, 1, 1, 1, 1, 1, 1, 1, 1, 1, 0]
      (by with_unfolding_all decide) (by with_unfolding_all decide),
    show rma RSI_PERIOD [(7 : ℚ), 0, 0, 0, 0, 0, 0, 0, 0, 0, 0, 0, 0, 0, 20]
        = [1 / 2, 53 / 28] from by with_unfolding_all decide,
    show rma RSI_PERIOD [(0 : ℚ), 1, 1, 1, 1, 1, 1, 1, 1, 1, 1, 1, 1, 1, 0]
        = [13 / 14, 169 / 196] from by with_unfolding_all decide]
  simp only [List.zipWith_cons_cons, List.zipWith_nil_right, List.zipWith_nil_left]
  norm_num [rsiPoint]

lemma c3closes_series :
    rsiSeries RSI_PERIOD c3closes = [2150 / 27] := by
  rw [rsiSeries_eq_of_maps c3closes
      [0.3, 0, 0, 0.4, 0.3, 0.7, 0.1, 0.1, 0.3, 0, 0.5, 0.5, 0.7, 0.4]
      [0, 0.2, 0.5, 0, 0, 0, 0, 0, 0, 0.4, 0, 0, 0, 0]
      (by with_unfolding_all decide) (by with_unfolding_all decide),
    show rma RSI_PERIOD
        [(0.3 : ℚ), 0, 0, 0.4, 0.3, 0.7, 0.1, 0.1, 0.3, 0, 0.5, 0.5, 0.7, 0.4]
        = [43 / 140] from by with_unfolding_all decide,
    show rma RSI_PERIOD [(0 : ℚ), 0.2, 0.5, 0, 0, 0, 0, 0, 0, 0.4, 0, 0, 0, 0]
        = [11 / 140] from by with_unfolding_all decide]
  simp only [List.zipWith_cons_cons, List.zipWith_nil_right, List.zipWith_nil_left]
  norm_num [rsiPoint]

lemma buyCross_series :
    rsiSeries RSI_PERIOD buyCrossCloses = [25, 205 / 4] := by
  rw [rsiSeries_eq_of_maps buyCrossCloses
      [5, 0, 0, 0, 0, 0, 0, 0, 0, 0, 0, 0, 0, 0, 10]
      [0, 3, 1, 1, 1, 1, 1, 1, 1, 1, 1, 1, 1, 1, 0]
      (by with_unfolding_all decide) (by with_unfolding_all decide),
    show rma RSI_PERIOD [(5 : ℚ), 0, 0, 0, 0, 0, 0, 0, 0, 0, 0, 0, 0, 0, 10]
        = [5 / 14, 205 / 196] from by with_unfolding_all decide,
    show rma RSI_PERIOD [(0 : ℚ), 3, 1, 1, 1, 1, 1, 1, 1, 1, 1, 1, 1, 1, 0]
        = [15 / 14, 195 / 196] from by with_unfolding_all decide]
  simp only [List.zipWith_cons_cons, List.zipWith_nil_right, List.zipWith_nil_left]
  norm_num [rsiPoint]

lemma sellCross_series :
    rsiSeries RSI_PERIOD sellCrossCloses = [250 / 3, 9750 / 187] := by
  rw [rsiSeries_eq_of_maps sellCrossCloses
      [0, 3, 1, 1, 1, 1, 1, 1, 1, 1, 1, 1, 1, 1, 0]
      [3, 0, 0, 0, 0, 0, 0, 0, 0, 0, 0, 0, 0, 0, 10]
      (by with_unfolding_all decide) (by with_unfolding_all decide),
    show rma RSI_PERIOD [(0 : ℚ), 3, 1, 1, 1, 1, 1, 1, 1, 1, 1, 1, 1, 1, 0]
        = [15 / 14, 195 / 196] from by with_unfolding_all decide,
    show rma RSI_PERIOD [(3 : ℚ), 0, 0, 0, 0, 0, 0, 0, 0, 0, 0, 0, 0, 0, 10]
        = [3 / 14, 179 / 196] from by with_unfolding_all decide]
  simp only [List.zipWith_cons_cons, List.zipWith_nil_right, List.zipWith_nil_left]
  norm_num [rsiPoint]

lemma rsiPrevCurr_of_closes (xs : List ℚ) (a b : ℚ)
    (h : rsiSeries RSI_PERIOD xs = [a, b]) :
    rsiPrev (candlesOfCloses xs) = some a ∧ rsiCurr (candlesOfCloses xs) = some b := by
  unfold rsiPrev rsiCurr
  rw [candlesOfCloses_close_map, h]
  exact ⟨rfl, rfl⟩

/-- C1 counterexample: with exactly 14 candles the guard length >= 14 passes,
the RSI series is empty, both undefined comparisons are false, and isBuySignal
returns the boolean false instead of the absent result the claim requires for
fewer than 15 candles; isSellSignal behaves the same way. -/
theorem c1_counterexample :
    (candlesOfCloses c1fourteenCloses).length = 14 ∧
    isBuySignal (candlesOfCloses c1fourteenCloses) = some false ∧
    isSellSignal (candlesOfCloses c1fourteenCloses) = some false := by
  with_unfolding_all decide

/-- C1 (amended): with fewer than 14 candles both signal functions return the
absent result (never an exception); with exactly 14 candles the guard already
passes and both return the boolean false rather than an absent result. -/
theorem c1_insufficient_history (candles : List ChartCandle) :
    (candles.length < 14 →
      isBuySignal candles = none ∧ isSellSignal candles = none) ∧
    (candles.length = 14 →
      isBuySignal candles = some false ∧ isSellSignal candles = some false) := by
  constructor
  · intro h
    have hg : ¬ (RSI_PERIOD ≤ candles.length) := by
      simp only [RSI_PERIOD]
      omega
    simp [isBuySignal, isSellSignal, hg]
  · intro h
    have hv : rsiSeries RSI_PERIOD (candles.map (fun c => c.close)) = [] := by
      have hlen := rsiSeries_length RSI_PERIOD (candles.map (fun c => c.close))
        (by norm_num [RSI_PERIOD])
      refine List.length_eq_zero.mp ?_
      simp only [List.length_map, RSI_PERIOD] at hlen ⊢
      omega
    have hg : RSI_PERIOD ≤ candles.length := by
      simp only [RSI_PERIOD]
      omega
    simp [isBuySignal, isSellSignal, hg, hv, jsIndex, jsLt, jsGt]

/-- C1 witness: the amended theorem applied to a 3 candle list and to the
14 candle boundary list. -/
theorem c1_insufficient_history_witness :
    isBuySignal (candlesOfCloses [1, 2, 3]) = none ∧
    isSellSignal (candlesOfCloses c1fourteenCloses) = some false :=
  ⟨((c1_insufficient_history (candlesOfCloses [1, 2, 3])).1 (by decide)).1,
   ((c1_insufficient_history (candlesOfCloses c1fourteenCloses)).2 (by decide)).2⟩

/-- C2 counterexample: a candle list whose previous RSI value is exactly the
oversold threshold 35 and whose current RSI value 1855/27 is above it; the
claim requires a buy signal (crossUp with a non strict comparison on the
earlier point), but the source compares with a strict less than, so
isBuySignal returns false. -/
theorem c2_counterexample :
    rsiPrev (candlesOfCloses touchOversoldCloses) = some 35 ∧
    rsiCurr (candlesOfCloses touchOversoldCloses) = some (1855 / 27) ∧
    (35 : ℚ) < 1855 / 27 ∧
    isBuySignal (candlesOfCloses touchOversoldCloses) = some false := by
  obtain ⟨hp, hc⟩ :=
    rsiPrevCurr_of_closes touchOversoldCloses 35 (1855 / 27) touchOversold_series
  refine ⟨hp, hc, by norm_num, ?_⟩
  rw [(signal_values _ _ _ hp hc).1]
  norm_num [RSI_OVERSOLD]

/-- C2 (amended): when the RSI series has at least two defined trailing
values, isBuySignal returns true if and only if the previous RSI value is
strictly below the oversold threshold 35 and the current one is strictly
above it; a previous value exactly equal to 35 does not count as a buy
signal, because the source uses a strict comparison on the earlier point. -/
theorem c2_buy_strict_cross (candles : List ChartCandle) (p c : ℚ)
    (hp : rsiPrev candles = some p) (hc : rsiCurr candles = some c) :
    isBuySignal candles = some true ↔ (p < RSI_OVERSOLD ∧ RSI_OVERSOLD < c) := by
  rw [(signal_values candles p c hp hc).1]
  simp

/-- C2 witness: the amended theorem applied to the concrete candle list whose
RSI goes from 25 to 205/4. -/
theorem c2_buy_strict_cross_witness :
    isBuySignal (candlesOfCloses buyCrossCloses) = some true ↔
      ((25 : ℚ) < RSI_OVERSOLD ∧ RSI_OVERSOLD < 205 / 4) :=
  c2_buy_strict_cross (candlesOfCloses buyCrossCloses) 25 (205 / 4)
    (rsiPrevCurr_of_closes buyCrossCloses 25 (205 / 4) buyCross_series).1
    (rsiPrevCurr_of_closes buyCrossCloses 25 (205 / 4) buyCross_series).2

/-- C3 counterexample: on the 15 point scenario sequence the source returns
the boolean false, not true as the claim states, because the 14 period RSI
series has a single defined point and the previous point is absent. -/
theorem c3_counterexample :
    isBuySignal (candlesOfCloses c3closes) = some false := by
  have hlen : RSI_PERIOD ≤ (candlesOfCloses c3closes).length := by decide
  unfold isBuySignal
  rw [if_pos hlen, candlesOfCloses_close_map, c3closes_series]
  rfl

/-- C3 (amended): on the 15 point scenario sequence the 14 period RSI series
has exactly one defined value, 2150/27, which is above 35; but since the
previous RSI point is absent no crossing can be detected, and isBuySignal
returns the boolean false rather than true. -/
theorem c3_end_to_end :
    rsiSeries RSI_PERIOD c3closes = [2150 / 27] ∧
    (35 : ℚ) < 2150 / 27 ∧
    rsiPrev (candlesOfCloses c3closes) = none ∧
    isBuySignal (candlesOfCloses c3closes) = some false := by
  have hlen : RSI_PERIOD ≤ (candlesOfCloses c3closes).length := by decide
  refine ⟨c3closes_series, by norm_num, ?_, ?_⟩
  · unfold rsiPrev
    rw [candlesOfCloses_close_map, c3closes_series]
    rfl
  · unfold isBuySignal
    rw [if_pos hlen, candlesOfCloses_close_map, c3closes_series]
    rfl

/-- C5: the buy and the sell verdict are mutually exclusive: whenever one
signal function returns true on a candle list, the other returns false on the
same list, because the buy verdict needs the previous RSI strictly below 35
while the sell verdict needs it strictly above 75. -/
theorem c5_mutual_exclusion (candles : List ChartCandle) :
    (isBuySignal candles = some true → isSellSignal candles = some false) ∧
    (isSellSignal candles = some true → isBuySignal candles = some false) := by
  have keyBuy : ∀ pv cv : Option ℚ,
      (jsLt pv RSI_OVERSOLD && jsGt cv RSI_OVERSOLD) = true →
      (jsGt pv RSI_OVERBOUGHT && jsLt cv RSI_OVERBOUGHT) = false := by
    intro pv cv hpv
    rcases pv with _ | x
    · simp [jsLt] at hpv
    · have h1 : x < 35 := by
        have := (Bool.and_eq_true_iff.mp hpv).1
        simpa [jsLt, RSI_OVERSOLD] using this
      have hx : jsGt (some x) RSI_OVERBOUGHT = false := by
        simp only [jsGt, decide_eq_false_iff_not, not_lt, RSI_OVERBOUGHT]
        linarith
      rw [hx, Bool.false_and]
  have keySell : ∀ pv cv : Option ℚ,
      (jsGt pv RSI_OVERBOUGHT && jsLt cv RSI_OVERBOUGHT) = true →
      (jsLt pv RSI_OVERSOLD && jsGt cv RSI_OVERSOLD) = false := by
    intro pv cv hpv
    rcases pv with _ | x
    · simp [jsGt] at hpv
    · have h1 : 75 < x := by
        have := (Bool.and_eq_true_iff.mp hpv).1
        simpa [jsGt, RSI_OVERBOUGHT] using this
      have hx : jsLt (some x) RSI_OVERSOLD = false := by
        simp only [jsLt, decide_eq_false_iff_not, not_lt, RSI_OVERSOLD]
        linarith
      rw [hx, Bool.false_and]
  unfold isBuySignal isSellSignal
  by_cases hg : RSI_PERIOD ≤ candles.length
  · rw [if_pos hg, if_pos hg]
    constructor <;> intro h <;> simp only [Option.some_inj] at h ⊢
    · exact keyBuy _ _ h
    · exact keySell _ _ h
  · rw [if_neg hg, if_neg hg]
    exact ⟨fun h => absurd h (by simp), fun h => absurd h (by simp)⟩

/-- C5 witness: the mutual exclusion theorem applied to a concrete list that
produces a buy signal and to a concrete list that produces a sell signal. -/
theorem c5_mutual_exclusion_witness :
    isSellSignal (candlesOfCloses buyCrossCloses) = some false ∧
    isBuySignal (candlesOfCloses sellCrossCloses) = some false := by
  obtain ⟨hp1, hc1⟩ := rsiPrevCurr_of_closes buyCrossCloses 25 (205 / 4) buyCross_series
  obtain ⟨hp2, hc2⟩ :=
    rsiPrevCurr_of_closes sellCrossCloses (250 / 3) (9750 / 187) sellCross_series
  refine ⟨(c5_mutual_exclusion _).1 ?_, (c5_mutual_exclusion _).2 ?_⟩
  · rw [(signal_values _ _ _ hp1 hc1).1]
    norm_num [RSI_OVERSOLD]
  · rw [(signal_values _ _ _ hp2 hc2).2]
    norm_num [RSI_OVERBOUGHT]

/-- C6: when the last two RSI points are defined, a previous value strictly
above the overbought threshold 75 followed by a current value strictly below
it makes isSellSignal return true, and a previous value strictly below the
oversold threshold 35 followed by a current value strictly above it makes
isBuySignal return true. -/
theorem c6_threshold_crossings (candles : List ChartCandle) (p c : ℚ)
    (hp : rsiPrev candles = some p) (hc : rsiCurr candles = some c) :
    (RSI_OVERBOUGHT < p → c < RSI_OVERBOUGHT → isSellSignal candles = some true) ∧
    (p < RSI_OVERSOLD → RSI_OVERSOLD < c → isBuySignal candles = some true) := by
  obtain ⟨hb, hs⟩ := signal_values candles p c hp hc
  constructor <;> intro h1 h2
  · rw [hs]
    simp [h1, h2]
  · rw [hb]
    simp [h1, h2]

/-- C6 witness: the theorem applied to a concrete list whose RSI goes from
250/3 to 9750/187 across the overbought line, and to a concrete list whose
RSI goes from 25 to 205/4 across the oversold line. -/
theorem c6_threshold_crossings_witness :
    isSellSignal (candlesOfCloses sellCrossCloses) = some true ∧
    isBuySignal (candlesOfCloses buyCrossCloses) = some true := by
  obtain ⟨hp2, hc2⟩ :=
    rsiPrevCurr_of_closes sellCrossCloses (250 / 3) (9750 / 187) sellCross_series
  obtain ⟨hp1, hc1⟩ := rsiPrevCurr_of_closes buyCrossCloses 25 (205 / 4) buyCross_series
  exact ⟨(c6_threshold_crossings _ _ _ hp2 hc2).1
           (by norm_num [RSI_OVERBOUGHT]) (by norm_num [RSI_OVERBOUGHT]),
         (c6_threshold_crossings _ _ _ hp1 hc1).2
           (by norm_num [RSI_OVERSOLD]) (by norm_num [RSI_OVERSOLD])⟩

/-- C7: the signal functions are deterministic pure functions of the candle
series: two invocations on the same input produce the same result, with no
hidden state carried between calls. -/
theorem c7_determinism (a b : List ChartCandle) (h : a = b) :
    isBuySignal a = isBuySignal b ∧ isSellSignal a = isSellSignal b := by
  rw [h]
  exact ⟨rfl, rfl⟩

/-- C7 witness: the determinism theorem applied to a concrete candle list. -/
theorem c7_determinism_witness :
    isBuySignal (candlesOfCloses c3closes) = isBuySignal (candlesOfCloses c3closes) ∧
    isSellSignal (candlesOfCloses c3closes) = isSellSignal (candlesOfCloses c3closes) :=
  c7_determinism (candlesOfCloses c3closes) (candlesOfCloses c3closes) rfl

/-- The indicator input section of the genetic bot configuration: one named
boolean key per indicator, as read by neuralNetwork.ts; a key missing from the
JSON configuration reads as false through the JavaScript or-with-false. The
KIJUN key exists in the configuration but the source never reads it. -/
structure IndicatorInputsConfigT where
  EMA21 : Bool
  EMA50 : Bool
  EMA100 : Bool
  ADX : Bool
  AO : Bool
  CCI : Bool
  MFI : Bool
  ROC : Bool
  RSI : Bool
  WILLIAM_R : Bool
  KIJUN : Bool
  VWAP : Bool
  VOL_OSC : Bool
  VOL : Bool
deriving DecidableEq

/-- The NEURAL_NETWORK_INPUTS object of neuralNetwork.ts: one boolean field
per indicator input, in object insertion order. -/
structure NeuralNetworkInputsT where
  EMA21 : Bool
  EMA50 : Bool
  EMA100 : Bool
  ADX : Bool
  AO : Bool
  CCI : Bool
  MFI : Bool
  ROC : Bool
  RSI : Bool
  WILLIAM_R : Bool
  KIJUN : Bool
  VWAP : Bool
  VOL_OSC : Bool
  VOL : Bool
deriving DecidableEq

/-- The NEURAL_NETWORK_INPUTS construction from the configuration, line by
line from neuralNetwork.ts: note that the KIJUN field reads the EMA21
configuration key in the source. -/
def NEURAL_NETWORK_INPUTS (cfg : IndicatorInputsConfigT) : NeuralNetworkInputsT where
  EMA21 := cfg.EMA21
  EMA50 := cfg.EMA50
  EMA100 := cfg.EMA100
  ADX := cfg.ADX
  AO := cfg.AO
  CCI := cfg.CCI
  MFI := cfg.MFI
  ROC := cfg.ROC
  RSI := cfg.RSI
  WILLIAM_R := cfg.WILLIAM_R
  KIJUN := cfg.EMA21
  VWAP := cfg.VWAP
  VOL_OSC := cfg.VOL_OSC
  VOL := cfg.VOL

/-- The entries of a NeuralNetworkInputsT value in object insertion order,
as Object.entries enumerates them. -/
def inputsEntries (f : NeuralNetworkInputsT) : List Bool :=
  [f.EMA21, f.EMA50, f.EMA100, f.ADX, f.AO, f.CCI, f.MFI, f.ROC, f.RSI,
   f.WILLIAM_R, f.KIJUN, f.VWAP, f.VOL_OSC, f.VOL]

/-- NUMBER_INPUTS from neuralNetwork.ts: 21 in candles mode, otherwise the
number of true entries of NEURAL_NETWORK_INPUTS plus one. -/
def NUMBER_INPUTS (inputsMode : String) (cfg : IndicatorInputsConfigT) : ℕ :=
  if inputsMode = "candles" then 21
  else ((inputsEntries (NEURAL_NETWORK_INPUTS cfg)).filter (fun v => v == true)).length + 1

/-- A JavaScript value as it appears in the input array of the network:
a number, undefined, or null. -/
inductive JSVal where
  | num : ℚ → JSVal
  | undef : JSVal
  | null : JSVal
deriving DecidableEq

/-- The result of a library indicator call as a JavaScript value: a number or,
when the result array was empty, undefined. -/
def toJSNum : Option ℚ → JSVal
  | some q => JSVal.num q
  | none => JSVal.undef

/-- One conditional indicator slot of the input array: the computed value when
the flag is enabled, null otherwise. -/
def slot (flag : Bool) (v : Option ℚ) : JSVal :=
  if flag then toJSNum v else JSVal.null

/-- Modelled from the spec: the trailing values of the external
technicalindicators library calls made by getInputsFromIndicators, one field
per indicator, as slice(-1)[0] of each result; none models an empty result
array. For ADX and the Ichimoku base line the source reads a property of that
element, so an empty result there is a runtime exception rather than an
undefined input. -/
structure LibIndicatorResults where
  ema21 : Option ℚ
  ema50 : Option ℚ
  ema100 : Option ℚ
  adxLast : Option ℚ
  aoLast : Option ℚ
  cciLast : Option ℚ
  mfiLast : Option ℚ
  rocLast : Option ℚ
  rsiLast : Option ℚ
  williamsLast : Option ℚ
  kijunLast : Option ℚ
  vwapLast : Option ℚ
  volOscLast : Option ℚ

/-- One spot wallet balance entry. -/
structure WalletBalance where
  symbol : String
  quantity : ℚ

/-- The spot wallet of the genetic bot. -/
structure Wallet where
  balances : List WalletBalance

/-- One futures position entry. -/
structure FuturesPosition where
  pair : String
  size : ℚ

/-- The futures wallet of the genetic bot. -/
structure FuturesWallet where
  positions : List FuturesPosition

/-- The extra argument of the input builders: an optional spot wallet and an
optional futures wallet. -/
structure ExtraWallets where
  wallet : Option Wallet
  futuresWallet : Option FuturesWallet

/-- The holdingTrade computation shared by both input builders: false, then
overwritten from the spot wallet balance when a wallet is given, then
overwritten from the futures position when a futures wallet is given; none
models the runtime exception raised when the find call returns undefined. -/
def computeHoldingTrade (pair : String) (extra : ExtraWallets) : Option Bool :=
  let fromWallet : Option Bool :=
    match extra.wallet with
    | none => some false
    | some w => (w.balances.find? (fun bal => bal.symbol == pair)).map
        (fun bal => decide (0 < bal.quantity))
  match fromWallet with
  | none => none
  | some h =>
    match extra.futuresWallet with
    | none => some h
    | some fw => (fw.positions.find? (fun pos => pos.pair == pair)).map
        (fun pos => decide (pos.size ≠ 0))

/-- getInputsFromIndicators from neuralNetwork.ts: each indicator slot holds
the library value when its NEURAL_NETWORK_INPUTS flag is set and null
otherwise, the trading volume comes from the last candle, the holding flag is
appended as 1 or 0, and null entries are filtered out. The result is none when
the source would raise: a property read on an empty ADX or Ichimoku result, a
last-candle access on an empty candle list for VWAP or VOL, or a failed wallet
lookup. -/
def getInputsFromIndicators (cfg : IndicatorInputsConfigT) (pair : String)
    (candles : List ChartCandle) (lib : LibIndicatorResults)
    (extra : ExtraWallets) : Option (List JSVal) :=
  let flags := NEURAL_NETWORK_INPUTS cfg
  if flags.ADX ∧ lib.adxLast = none then none
  else if flags.KIJUN ∧ lib.kijunLast = none then none
  else if (flags.VWAP ∨ flags.VOL) ∧ candles = [] then none
  else
    match computeHoldingTrade pair extra with
    | none => none
    | some holdingTrade =>
      let inputs :=
        [slot flags.EMA21 lib.ema21,
         slot flags.EMA50 lib.ema50,
         slot flags.EMA100 lib.ema100,
         slot flags.ADX lib.adxLast,
         slot flags.AO lib.aoLast,
         slot flags.CCI lib.cciLast,
         slot flags.MFI lib.mfiLast,
         slot flags.ROC lib.rocLast,
         slot flags.RSI lib.rsiLast,
         slot flags.WILLIAM_R lib.williamsLast,
         slot flags.VWAP lib.vwapLast,
         slot flags.KIJUN lib.kijunLast,
         slot flags.VOL_OSC lib.volOscLast,
         slot flags.VOL ((candles.getLast?).map (fun c => c.volume)),
         JSVal.num (if holdingTrade then 1 else 0)]
      some (inputs.filter (fun i => i != JSVal.null))

/-- The three possible trade decisions of the network. -/
inductive NetworkDecision where
  | BUY : NetworkDecision
  | SELL : NetworkDecision
  | CLOSE : NetworkDecision
deriving DecidableEq

/-- Math.max of the three network outputs. -/
def jsMax3 (a0 a1 a2 : ℚ) : ℚ :=
  max a0 (max a1 a2)

/-- The decision part of getOutputs from neuralNetwork.ts: the brain.predict
call is an external library, so its three outputs are taken as arguments; the
function returns BUY, SELL or CLOSE when the corresponding output equals the
maximum and exceeds 0.6, in that order, and otherwise falls through returning
undefined (none). -/
def getOutputs (a0 a1 a2 : ℚ) : Option NetworkDecision :=
  let m := jsMax3 a0 a1 a2
  if m = a0 ∧ (0.6 : ℚ) < a0 then some NetworkDecision.BUY
  else if m = a1 ∧ (0.6 : ℚ) < a1 then some NetworkDecision.SELL
  else if m = a2 ∧ (0.6 : ℚ) < a2 then some NetworkDecision.CLOSE
  else none

/-- getCandleSource from getInputsFromCandles in neuralNetwork.ts: selects the
configured source series from the candles, defaulting to the close series. -/
def getCandleSource (candleSource : String) (candles : List ChartCandle) : List ℚ :=
  if candleSource = "open" then candles.map (fun c => c.open_)
  else if candleSource = "close" then candles.map (fun c => c.close)
  else if candleSource = "high" then candles.map (fun c => c.high)
  else if candleSource = "low" then candles.map (fun c => c.low)
  else if candleSource = "hl2" then candles.map (fun c => (c.high + c.low) / 2)
  else candles.map (fun c => c.close)

/-- JavaScript Array.prototype.slice with a single integer start argument:
a negative start counts from the end clamped at zero, a non negative start is
clamped at the length. Note that slice(-0) is slice(0), the whole array. -/
def jsSliceStart (l : List ℚ) (k : ℤ) : List ℚ :=
  if k < 0 then l.drop (l.length - (-k).toNat)
  else l.drop (min k.toNat l.length)

/-- getInputsFromCandles from neuralNetwork.ts: the last elements of the
selected source series via slice(-length), with the holding flag appended as
1 or 0; none models the runtime exception of a failed wallet lookup. -/
def getInputsFromCandles (candleSource : String) (pair : String)
    (candles : List ChartCandle) (len : ℕ) (extra : ExtraWallets) :
    Option (List ℚ) :=
  match computeHoldingTrade pair extra with
  | none => none
  | some holdingTrade =>
    some (jsSliceStart (getCandleSource candleSource candles) (-(len : ℤ))
      ++ [if holdingTrade then 1 else 0])

/-- The source selection exactly as claim C10 words it: open, close, high,
low, or hl2 = (high + low) / 2, defaulting to close for any unrecognized
source. -/
def claimSelectSource (candleSource : String) (c : ChartCandle) : ℚ :=
  if candleSource = "open" then c.open_
  else if candleSource = "close" then c.close
  else if candleSource = "high" then c.high
  else if candleSource = "low" then c.low
  else if candleSource = "hl2" then (c.high + c.low) / 2
  else c.close

/-- The last n elements of a list. -/
def lastN (n : ℕ) (l : List ℚ) : List ℚ :=
  l.drop (l.length - n)

/-- The feature vector exactly as claim C10 words it: the last
min(length, number of candles) values of the selected source field, followed
by exactly one trailing element, 1 when a trade or position is held and 0
otherwise. -/
def claimCandleInputs (candleSource : String) (pair : String)
    (candles : List ChartCandle) (len : ℕ) (extra : ExtraWallets) :
    Option (List ℚ) :=
  (computeHoldingTrade pair extra).map (fun h =>
    lastN (min len candles.length) (candles.map (claimSelectSource candleSource))
      ++ [if h then 1 else 0])

/-- A configuration with only the KIJUN key enabled. -/
def cfgKijunOnly : IndicatorInputsConfigT :=
  { EMA21 := false, EMA50 := false, EMA100 := false, ADX := false, AO := false,
    CCI := false, MFI := false, ROC := false, RSI := false, WILLIAM_R := false,
    KIJUN := true, VWAP := false, VOL_OSC := false, VOL := false }

/-- A configuration with only the EMA21 key enabled. -/
def cfgEma21Only : IndicatorInputsConfigT :=
  { EMA21 := true, EMA50 := false, EMA100 := false, ADX := false, AO := false,
    CCI := false, MFI := false, ROC := false, RSI := false, WILLIAM_R := false,
    KIJUN := false, VWAP := false, VOL_OSC := false, VOL := false }

/-- A configuration with every key enabled. -/
def cfgAllTrue : IndicatorInputsConfigT :=
  { EMA21 := true, EMA50 := true, EMA100 := true, ADX := true, AO := true,
    CCI := true, MFI := true, ROC := true, RSI := true, WILLIAM_R := true,
    KIJUN := true, VWAP := true, VOL_OSC := true, VOL := true }

/-- Library results where every indicator produced the value 1. -/
def libAllOne : LibIndicatorResults :=
  { ema21 := some 1, ema50 := some 1, ema100 := some 1, adxLast := some 1,
    aoLast := some 1, cciLast := some 1, mfiLast := some 1, rocLast := some 1,
    rsiLast := some 1, williamsLast := some 1, kijunLast := some 1,
    vwapLast := some 1, volOscLast := some 1 }

/-- No wallet of either kind. -/
def extraNone : ExtraWallets :=
  { wallet := none, futuresWallet := none }

/-- C4: the KIJUN feature is not controlled by the KIJUN configuration key:
the source reads the EMA21 key for it. With only KIJUN set the flag is false
and the feature vector contains no indicator value, while with only EMA21 set
the KIJUN flag is true and the vector contains both the EMA21 and the KIJUN
values. This contradicts the claim that each indicator input is enabled
solely by its own named boolean configuration field. -/
theorem c4_kijun_flag_bug :
    (NEURAL_NETWORK_INPUTS cfgKijunOnly).KIJUN = false ∧
    (NEURAL_NETWORK_INPUTS cfgEma21Only).KIJUN = true ∧
    getInputsFromIndicators cfgKijunOnly "p" [candleOfClose 1] libAllOne extraNone
      = some [JSVal.num 0] ∧
    getInputsFromIndicators cfgEma21Only "p" [candleOfClose 1] libAllOne extraNone
      = some [JSVal.num 1, JSVal.num 1, JSVal.num 0] := by
  with_unfolding_all decide

lemma length_filter_slot_cons (b : Bool) (v : Option ℚ) (xs : List JSVal) :
    ((slot b v :: xs).filter (fun i => i != JSVal.null)).length
      = (if b then 1 else 0) + (xs.filter (fun i => i != JSVal.null)).length := by
  cases b <;> cases v <;> simp [slot, toJSNum] <;> omega

lemma length_filter_true_cons (b : Bool) (xs : List Bool) :
    ((b :: xs).filter (fun v => v == true)).length
      = (if b then 1 else 0) + (xs.filter (fun v => v == true)).length := by
  cases b <;> simp [Nat.add_comm]

lemma length_filter_num_single (q : ℚ) :
    (([JSVal.num q]).filter (fun i => i != JSVal.null)).length = 1 := by
  simp

/-- C8: in indicator input mode, whenever getInputsFromIndicators returns a
list, its length is exactly NUMBER_INPUTS: enabled flags contribute their
slot (a number or undefined, never filtered), disabled flags contribute null
(filtered out), and the trailing holding flag is always kept. -/
theorem c8_inputs_length (inputsMode : String) (cfg : IndicatorInputsConfigT)
    (pair : String) (candles : List ChartCandle) (lib : LibIndicatorResults)
    (extra : ExtraWallets) (l : List JSVal)
    (hm : inputsMode ≠ "candles")
    (h : getInputsFromIndicators cfg pair candles lib extra = some l) :
    l.length = NUMBER_INPUTS inputsMode cfg := by
  unfold getInputsFromIndicators at h
  simp only [] at h
  split_ifs at h
  rcases hh : computeHoldingTrade pair extra with _ | holding <;> rw [hh] at h
  · simp at h
  · simp only [Option.some.injEq] at h
    subst h
    unfold NUMBER_INPUTS
    rw [if_neg hm]
    simp only [inputsEntries, length_filter_slot_cons, length_filter_true_cons,
      length_filter_num_single, List.filter_nil, List.length_nil]
    ring

/-- C8 witness: the theorem applied to the all-enabled configuration, one
candle, unit library results and no wallet; the returned vector has 13 number
slots, the volume 0 and the holding flag 0, and its length is NUMBER_INPUTS. -/
theorem c8_inputs_length_witness :
    ([JSVal.num 1, JSVal.num 1, JSVal.num 1, JSVal.num 1, JSVal.num 1,
      JSVal.num 1, JSVal.num 1, JSVal.num 1, JSVal.num 1, JSVal.num 1,
      JSVal.num 1, JSVal.num 1, JSVal.num 1, JSVal.num 0, JSVal.num 0]
      : List JSVal).length = NUMBER_INPUTS "indicators" cfgAllTrue :=
  c8_inputs_length "indicators" cfgAllTrue "p" [candleOfClose 1] libAllOne extraNone _
    (by decide) (by with_unfolding_all decide)

/-- C9: getOutputs returns BUY only when the first output is the maximum and
exceeds 0.6, SELL only when the second output is the maximum and exceeds 0.6,
CLOSE only when the third output is the maximum and exceeds 0.6, and returns
no decision when no output is both maximal and above 0.6. -/
theorem c9_outputs_thresholds (a0 a1 a2 : ℚ) :
    (getOutputs a0 a1 a2 = some NetworkDecision.BUY →
      jsMax3 a0 a1 a2 = a0 ∧ (0.6 : ℚ) < a0) ∧
    (getOutputs a0 a1 a2 = some NetworkDecision.SELL →
      jsMax3 a0 a1 a2 = a1 ∧ (0.6 : ℚ) < a1) ∧
    (getOutputs a0 a1 a2 = some NetworkDecision.CLOSE →
      jsMax3 a0 a1 a2 = a2 ∧ (0.6 : ℚ) < a2) ∧
    (¬(jsMax3 a0 a1 a2 = a0 ∧ (0.6 : ℚ) < a0) →
      ¬(jsMax3 a0 a1 a2 = a1 ∧ (0.6 : ℚ) < a1) →
      ¬(jsMax3 a0 a1 a2 = a2 ∧ (0.6 : ℚ) < a2) →
      getOutputs a0 a1 a2 = none) := by
  unfold getOutputs
  simp only []
  split_ifs with h1 h2 h3 <;> simp_all

/-- C9 witness: outputs (1, 0, 0) produce BUY with the first output maximal
and above 0.6; outputs (0.5, 0.5, 0.5) produce no decision. -/
theorem c9_outputs_thresholds_witness :
    (jsMax3 1 0 0 = 1 ∧ (0.6 : ℚ) < 1) ∧ getOutputs 0.5 0.5 0.5 = none :=
  ⟨(c9_outputs_thresholds 1 0 0).1 (by with_unfolding_all decide),
   (c9_outputs_thresholds 0.5 0.5 0.5).2.2.2
     (fun hx => absurd hx.2 (by norm_num))
     (fun hx => absurd hx.2 (by norm_num))
     (fun hx => absurd hx.2 (by norm_num))⟩

/-- C10 counterexample: at requested length 0 the source slice(-0) is
slice(0), the whole series, so with one candle the result has two elements
where the claim requires min(0, 1) + 1 = 1 element. -/
theorem c10_counterexample :
    getInputsFromCandles "close" "p" [candleOfClose 5] 0 extraNone
      = some [5, 0] ∧
    claimCandleInputs "close" "p" [candleOfClose 5] 0 extraNone
      = some [0] := by
  with_unfolding_all decide

/-- C10 (amended): for every requested length of at least 1, every source
string, candle list and wallet state, getInputsFromCandles agrees with the
claim description: the last min(length, number of candles) values of the
selected source field (open, close, high, low, hl2, defaulting to close),
followed by one trailing holding flag. -/
theorem c10_candle_inputs (candleSource pair : String)
    (candles : List ChartCandle) (len : ℕ) (extra : ExtraWallets)
    (hlen : 1 ≤ len) :
    getInputsFromCandles candleSource pair candles len extra
      = claimCandleInputs candleSource pair candles len extra := by
  unfold getInputsFromCandles claimCandleInputs
  rcases hh : computeHoldingTrade pair extra with _ | holding
  · rfl
  · simp only [Option.map_some']
    have hsel : getCandleSource candleSource candles
        = candles.map (claimSelectSource candleSource) := by
      unfold getCandleSource claimSelectSource
      split_ifs <;> simp_all
    rw [hsel]
    have hslice : jsSliceStart (candles.map (claimSelectSource candleSource)) (-(len : ℤ))
        = lastN (min len candles.length) (candles.map (claimSelectSource candleSource)) := by
      unfold jsSliceStart lastN
      rw [if_pos (by omega : (-(len : ℤ)) < 0)]
      simp only [neg_neg, Int.toNat_natCast, List.length_map]
      congr 1
      omega
    rw [hslice]

/-- C10 witness: the amended theorem applied to a two candle list with source
hl2 and length 1. -/
theorem c10_candle_inputs_witness :
    getInputsFromCandles "hl2" "p" [candleOfClose 5, candleOfClose 7] 1 extraNone
      = claimCandleInputs "hl2" "p" [candleOfClose 5, candleOfClose 7] 1 extraNone :=
  c10_candle_inputs "hl2" "p" [candleOfClose 5, candleOfClose 7] 1 extraNone
    (by decide)
